import Mathlib

/-!
Verification development for a semantic-search backend over spreadsheet data.

The embedded program ingests tabular files, splits cell contents into textual
and numerical streams (`excel_processor.py`), and answers natural-language
queries either by vector similarity search or by a generated, safety-gated SQL
statement (`search_service.py`), with embeddings produced by
`embedding_service.py`.  Python strings are modelled as lists of characters,
Python floats as exact rationals, machine integers as `Int`, fallible calls as
`Except`, and the external collaborators (relational database, vector store,
embedding and generation providers) as explicit functional parameters.
-/

/-- Python strings are modelled as lists of characters. -/
abbrev PyString := List Char

/-- Models the Python substring test `needle in hay` on strings. -/
def pyContains (hay needle : PyString) : Bool :=
  hay.tails.any (fun t => List.isPrefixOf needle t)

/-- Models Python `str.upper()` (the program only uppercases ASCII SQL text). -/
def pyUpper (s : PyString) : PyString := s.map Char.toUpper

/-- Models Python `str.lower()` (the program only lowercases ASCII column names). -/
def pyLower (s : PyString) : PyString := s.map Char.toLower

/-- Models Python `str.strip()`: removes whitespace from both ends. -/
def pyStrip (s : PyString) : PyString :=
  ((s.dropWhile Char.isWhitespace).reverse.dropWhile Char.isWhitespace).reverse

/-- Decimal digit character for `n % 10`. -/
def digitChar (n : ℕ) : Char :=
  match n % 10 with
  | 0 => '0' | 1 => '1' | 2 => '2' | 3 => '3' | 4 => '4'
  | 5 => '5' | 6 => '6' | 7 => '7' | 8 => '8' | _ => '9'

/-- Decimal digits of a natural number, most significant first, fuel-bounded
(the fuel `n + 1` always suffices). -/
def natDigitsAux : ℕ → ℕ → List Char → List Char
  | 0, _, acc => acc
  | fuel + 1, n, acc =>
    if n < 10 then digitChar n :: acc
    else natDigitsAux fuel (n / 10) (digitChar (n % 10) :: acc)

/-- Decimal digits of a natural number, most significant first. -/
def natDigits (n : ℕ) : List Char := natDigitsAux (n + 1) n []

/-- Models Python `str` of an `int`. -/
def pyStrInt (n : ℤ) : PyString :=
  (if n < 0 then ['-'] else []) ++ natDigits n.natAbs

/-- Decimal expansion of the fraction `rem / den` (`rem < den`), fuel-bounded.
Python floats are dyadic rationals, whose decimal expansions terminate well
inside the fuel used below. -/
def fracDigitsAux : ℕ → ℕ → ℕ → List Char
  | 0, _, _ => []
  | fuel + 1, rem, den =>
    if rem = 0 then []
    else digitChar (rem * 10 / den) :: fracDigitsAux fuel (rem * 10 % den) den

/-- Models Python `str` of a finite float, as the exact decimal expansion of the
rational it denotes (shortest round-trip printing agrees with this on the
values the program manipulates; exponent notation for extreme magnitudes is
not modelled, no claim depends on it). -/
def pyStrFloat (q : ℚ) : PyString :=
  let sign := if q.num < 0 then ['-'] else []
  let n := q.num.natAbs
  let rem := n % q.den
  sign ++ natDigits (n / q.den) ++
    '.' :: (if rem = 0 then ['0'] else fracDigitsAux 1200 rem q.den)

/-- Numeric value of a list of decimal digit characters. -/
def natOfDigits (ds : List Char) : ℕ :=
  ds.foldl (fun acc c => 10 * acc + (c.toNat - 48)) 0

/-- Consumes an optional leading sign, returning whether it was a minus. -/
def parseSign : PyString → Bool × PyString
  | [] => (false, [])
  | c :: rest =>
    if c = '+' then (false, rest)
    else if c = '-' then (true, rest)
    else (false, c :: rest)

/-- Reads an optional exponent suffix `(e|E)[sign]digits` which must extend to
the end of the string; returns the signed exponent, or `none` on a malformed
tail. -/
def parseExponent : PyString → Option ℤ
  | [] => some 0
  | c :: rest =>
    if c = 'e' ∨ c = 'E' then
      let p := parseSign rest
      let ds := p.2.takeWhile Char.isDigit
      let tail := p.2.dropWhile Char.isDigit
      if ds.isEmpty ∨ ¬ tail.isEmpty then none
      else some (if p.1 then -(natOfDigits ds : ℤ) else (natOfDigits ds : ℤ))
    else none

/-- Splits an optional fraction part `. digits` off the residual input,
returning the fraction digits and the remaining tail. -/
def splitFraction (t2 : PyString) : List Char × PyString :=
  match t2 with
  | [] => ([], [])
  | d :: r =>
    if d = '.' then (r.takeWhile Char.isDigit, r.dropWhile Char.isDigit)
    else ([], d :: r)

/-- Models CPython `float(str)`: after stripping surrounding whitespace it
accepts `[sign] (digits [. digits] | . digits) [(e|E) [sign] digits]` and
returns the exact rational value (double rounding, `inf`/`nan` and digit-group
underscores are not modelled; no claim depends on them). -/
def pyFloatOfString (s : PyString) : Option ℚ :=
  let p := parseSign (pyStrip s)
  let d1 := p.2.takeWhile Char.isDigit
  let fraction := splitFraction (p.2.dropWhile Char.isDigit)
  if d1.isEmpty ∧ fraction.1.isEmpty then none
  else
    match parseExponent fraction.2 with
    | none => none
    | some e =>
      let mant : ℚ := (natOfDigits (d1 ++ fraction.1) : ℚ) / (10 : ℚ) ^ fraction.1.length
      let v : ℚ := mant * (10 : ℚ) ^ e
      some (if p.1 then -v else v)

/-- A value held in a spreadsheet cell, as seen by the classifier: a Python
int, float, or string. -/
inductive CellValue where
  | int (n : ℤ)
  | float (q : ℚ)
  | str (s : PyString)
deriving DecidableEq

/-- Models Python `str(value)` on a cell value. -/
def pyStr : CellValue → PyString
  | .int n => pyStrInt n
  | .float q => pyStrFloat q
  | .str s => s

/-- Models Python `float(value)` on a cell value, `none` when it raises. -/
def pyFloat : CellValue → Option ℚ
  | .int n => some (n : ℚ)
  | .float q => some q
  | .str s => pyFloatOfString s

/-- Embeds `ExcelProcessor._is_numerical` (`excel_processor.py`): whether
`float(value)` succeeds.  (The `pd.isna` guard is handled by the caller's
NaN skip, modelled in `rowDataPoints` below.) -/
def is_numerical (value : CellValue) : Bool := (pyFloat value).isSome

/-- The source's list of currency symbols in `_classify_numerical_type`. -/
def currency_symbols : List Char := ['$', '€', '£', '¥', '₹']

/-- Embeds the test `isinstance(value, float) and 0 <= value <= 1` from
`_classify_numerical_type`. -/
def floatInUnitInterval : CellValue → Bool
  | .float q => decide (0 ≤ q ∧ q ≤ 1)
  | _ => false

/-- Embeds the test `isinstance(value, float)`. -/
def CellValue.isFloat : CellValue → Bool
  | .float _ => true
  | _ => false

/-- Embeds `ExcelProcessor._classify_numerical_type` (`excel_processor.py`,
lines 195-212): percentage, then currency, then decimal, then number. -/
def classify_numerical_type (value : CellValue) (str_value : PyString) : String :=
  if str_value.contains '%' || floatInUnitInterval value then "percentage"
  else if currency_symbols.any (fun symbol => str_value.contains symbol) then "currency"
  else if value.isFloat && str_value.contains '.' then "decimal"
  else "number"

/-- Embeds the pydantic model `ExcelDataPoint` (`schemas.py`). -/
structure ExcelDataPoint where
  row_index : ℤ
  column_name : PyString
  text_value : Option PyString
  numerical_value : Option ℚ
  data_type : String
  formula : Option PyString
deriving DecidableEq

/-- Embeds `ExcelProcessor._create_data_point` (`excel_processor.py`, lines
141-181).  The source guards with `_is_numerical(value)` and then calls
`float(value)`; here the successful parse is matched directly, which is the
same test. -/
def create_data_point (row_idx : ℤ) (column_name : PyString) (value : CellValue) :
    ExcelDataPoint :=
  let str_value := pyStrip (pyStr value)
  match pyFloat value with
  | some q =>
    { row_index := row_idx, column_name := column_name, text_value := none,
      numerical_value := some q,
      data_type := classify_numerical_type value str_value, formula := none }
  | none =>
    if List.isPrefixOf ("=".toList) str_value then
      { row_index := row_idx, column_name := column_name, text_value := some str_value,
        numerical_value := none, data_type := "formula", formula := some str_value }
    else
      { row_index := row_idx, column_name := column_name, text_value := some str_value,
        numerical_value := none, data_type := "text", formula := none }

/-- A pandas DataFrame as `_separate_data_types` consumes it: the column list
plus the rows; each row is an association list from column name to either
`none` (a NaN cell — pandas also represents a genuinely missing entry as NaN,
so an absent key is treated the same way) or a value. -/
structure DataFrame where
  columns : List PyString
  rows : List (List (PyString × Option CellValue))

/-- One iteration of the row loop of `_separate_data_types`: for each header,
skip it when it is not a DataFrame column or the cell is NaN, otherwise build
the data point. -/
def rowDataPoints (columns : List PyString) (headers : List PyString) (row_idx : ℤ)
    (row : List (PyString × Option CellValue)) : List ExcelDataPoint :=
  headers.filterMap (fun col_name =>
    if col_name ∈ columns then
      match (List.lookup col_name row).join with
      | some value => some (create_data_point row_idx col_name value)
      | none => none
    else none)

/-- All data points produced by the nested loops of `_separate_data_types`, in
iteration order. -/
def allDataPoints (df : DataFrame) (headers : List PyString) : List ExcelDataPoint :=
  (df.rows.enum.map (fun p => rowDataPoints df.columns headers (p.1 : ℤ) p.2)).flatten

/-- The data types routed to `numerical_data` by `_separate_data_types`. -/
def numerical_types : List String := ["number", "percentage", "currency"]

/-- Embeds `ExcelProcessor._separate_data_types` (`excel_processor.py`, lines
102-139).  The source appends each point to `text_data` when its type is
`text` and to `numerical_data` when its type is number/percentage/currency;
appending in iteration order is exactly an order-preserving filter of the
point stream, which is how it is written here. -/
def separate_data_types (df : DataFrame) (headers : List PyString) :
    List ExcelDataPoint × List ExcelDataPoint :=
  let pts := allDataPoints df headers
  (pts.filter (fun dp => dp.data_type == "text"),
   pts.filter (fun dp => numerical_types.contains dp.data_type))

/-- The number of non-null cells of the data region: cells under a retained
header, lying in a DataFrame column, holding a value. -/
def dataCellCount (df : DataFrame) (headers : List PyString) : ℕ :=
  (df.rows.map (fun row =>
    (headers.filter (fun c =>
      decide (c ∈ df.columns) && ((List.lookup c row).join).isSome)).length)).sum

/-- A value in a row returned by the relational database. -/
inductive SqlValue where
  | int (n : ℤ)
  | float (q : ℚ)
  | str (s : PyString)
  | null
deriving DecidableEq

/-- A result row: a Python dict from column names to values, as an association
list with at most one entry per key (Python dicts keep insertion order;
overwriting a key keeps its position, appending adds at the end). -/
abbrev Row := List (PyString × SqlValue)

/-- The relational database session, modelled by what `_execute_sql_safely`
asks of it: executing a statement yields rows or raises. -/
structure Database where
  exec : PyString → Except PyString (List Row)

/-- The one exception `_execute_sql_safely` itself raises. -/
inductive SqlFailure where
  | valueError (msg : PyString)
deriving DecidableEq

/-- The denylist of mutating SQL keywords from `_execute_sql_safely`
(`search_service.py`, line 280); the Python attribute name for this list is not
usable as a Lean name here. -/
def denylist_keywords : List PyString :=
  [("DELETE".toList), ("UPDATE".toList), ("INSERT".toList), ("DROP".toList),
   ("ALTER".toList), ("CREATE".toList), ("TRUNCATE".toList)]

/-- Embeds `SearchService._execute_sql_safely` (`search_service.py`, lines
274-297).  With no session it returns an empty list at once; otherwise the
first denylisted keyword found in the uppercased statement raises
`ValueError`, and only then is the statement executed, any execution failure
being swallowed into an empty result list.  The `find?` mirrors the source's
first-match loop over the keyword list. -/
def execute_sql_safely (db : Option Database) (sql_query : PyString) :
    Except SqlFailure (List Row) :=
  match db with
  | none => .ok []
  | some database =>
    let query_upper := pyUpper sql_query
    match denylist_keywords.find? (fun keyword => pyContains query_upper keyword) with
    | some keyword => .error (.valueError (("Unsafe SQL operation detected: ".toList) ++ keyword))
    | none =>
      match database.exec sql_query with
      | .ok rows => .ok rows
      | .error _ => .ok []

/-- Models `result[key] = value` on a Python dict row: overwrite in place or
append at the end. -/
def dictSet : Row → PyString → SqlValue → Row
  | [], k, v => [(k, v)]
  | (k1, v1) :: rest, k, v =>
    if k1 = k then (k, v) :: rest else (k1, v1) :: dictSet rest k v

/-- Models `key in result` on a Python dict row. -/
def dictContains (row : Row) (k : PyString) : Bool := (List.lookup k row).isSome

/-- Models `isinstance(x, (int, float))`. -/
def SqlValue.isNumber : SqlValue → Bool
  | .int _ => true
  | .float _ => true
  | _ => false

/-- The rational denoted by an int/float SQL value (unused on other values). -/
def SqlValue.numVal : SqlValue → ℚ
  | .int n => (n : ℚ)
  | .float q => q
  | _ => 0

/-- Rounds `num / den` (`den ≠ 0`) to the nearest integer, ties to even — the
rounding Python's `format` applies (modelled on the exact rational rather than
on the binary double). -/
def roundHalfEven (num : ℤ) (den : ℕ) : ℤ :=
  let q := Int.ediv num den
  let r := Int.emod num den
  if 2 * r < (den : ℤ) then q
  else if (den : ℤ) < 2 * r then q + 1
  else if q % 2 = 0 then q else q + 1

/-- Inserts thousands separators into a reversed digit list, fuel-bounded. -/
def groupThousandsAux : ℕ → List Char → List Char
  | 0, ds => ds
  | fuel + 1, ds =>
    if ds.length ≤ 3 then ds
    else ds.take 3 ++ ',' :: groupThousandsAux fuel (ds.drop 3)

/-- Groups a digit list in threes from the right with commas, as Python's `,`
format flag does. -/
def groupThousands (ds : List Char) : List Char :=
  (groupThousandsAux ds.length ds.reverse).reverse

/-- Renders `num / den` (`den ≠ 0`) with exactly two decimals, optionally with
thousands grouping of the integer part: Python `format(x, '.2f')` and
`format(x, ',.2f')` on the exact rational. -/
def formatFixed2 (grouped : Bool) (num : ℤ) (den : ℕ) : PyString :=
  let c := roundHalfEven (num * 100) den
  let sign := if c < 0 then ['-'] else []
  let n := c.natAbs
  let ipDigits := natDigits (n / 100)
  sign ++ (if grouped then groupThousands ipDigits else ipDigits) ++
    '.' :: [digitChar (n % 100 / 10), digitChar (n % 10)]

/-- Models the f-string `f"{value:.2%}"` from `_post_process_sql_results`. -/
def format_percent (q : ℚ) : PyString :=
  formatFixed2 false (q.num * 100) q.den ++ ['%']

/-- Models the f-string `f"${value:,.2f}"` from `_post_process_sql_results`. -/
def format_currency (q : ℚ) : PyString :=
  '$' :: formatFixed2 true q.num q.den

/-- The column name `_post_process_sql_results` reads through
`result.get('column_name', '')`.  A non-string value under that key would make
the Python code raise `AttributeError` on `.lower()`; such rows are outside
the modelled domain, and the name is taken to be the string value when
present, empty otherwise. -/
def rowColumnName (row : Row) : PyString :=
  match List.lookup ("column_name".toList) row with
  | some (.str s) => s
  | _ => []

/-- Embeds the per-row body of `SearchService._post_process_sql_results`
(`search_service.py`, lines 309-319): annotate percentage-suggesting columns
with a percent string, else sales/quota-suggesting columns with a currency
string, in both cases only when the numerical value is an int or float. -/
def post_process_row (row : Row) : Row :=
  if dictContains row ("numerical_value".toList) && dictContains row ("column_name".toList) then
    if pyContains (pyLower (rowColumnName row)) ("performance".toList) ||
        (rowColumnName row).contains '%' then
      match List.lookup ("numerical_value".toList) row with
      | some v =>
        if v.isNumber then dictSet row ("formatted_value".toList) (.str (format_percent v.numVal))
        else row
      | none => row
    else if pyContains (pyLower (rowColumnName row)) ("sales".toList) ||
        pyContains (pyLower (rowColumnName row)) ("quota".toList) then
      match List.lookup ("numerical_value".toList) row with
      | some v =>
        if v.isNumber then dictSet row ("formatted_value".toList) (.str (format_currency v.numVal))
        else row
      | none => row
    else row
  else row

/-- Embeds `SearchService._post_process_sql_results` (`search_service.py`,
lines 299-321): the empty list is returned as is, otherwise each row is
processed in place. -/
def post_process_sql_results (results : List Row) : List Row :=
  if results.isEmpty then results else results.map post_process_row

/-- A neighbor returned by the vector store query: document text, the metadata
fields `semantic_search` reads, and the distance. -/
structure Neighbor where
  document : PyString
  row_index : ℤ
  column_name : PyString
  distance : ℚ
deriving DecidableEq

/-- Embeds the pydantic model `SearchResult` (`schemas.py`), restricted to the
fields `semantic_search` computes from a neighbor.  (The SQL metadata
enrichment only augments the metadata payload and touches neither score nor
order nor count; it is not modelled.) -/
structure SearchResult where
  content : PyString
  score : ℚ
  row_index : ℤ
  column_name : PyString
deriving DecidableEq

/-- The result record built for an accepted neighbor in `semantic_search`. -/
def mkSearchResult (n : Neighbor) (score : ℚ) : SearchResult :=
  { content := n.document, score := score, row_index := n.row_index,
    column_name := n.column_name }

/-- Embeds the neighbor loop of `SearchService.semantic_search`
(`search_service.py`, lines 66-92): compute `score = 1 - distance`, skip
scores below the threshold, append otherwise, and break as soon as `limit`
results are collected. -/
def collect_results (limit : ℕ) (threshold : ℚ) :
    List Neighbor → List SearchResult → List SearchResult
  | [], acc => acc
  | n :: rest, acc =>
    let score := 1 - n.distance
    if score < threshold then collect_results limit threshold rest acc
    else
      let acc1 := acc ++ [mkSearchResult n score]
      if limit ≤ acc1.length then acc1 else collect_results limit threshold rest acc1

/-- Embeds the pydantic model `SearchResponse` (`schemas.py`), restricted to
the fields `semantic_search` computes deterministically. -/
structure SearchResponse where
  query : PyString
  results : List SearchResult
  total_results : ℕ
  search_type : String
deriving DecidableEq

/-- Embeds `SearchService.semantic_search` (`search_service.py`, lines 36-109).
The vector store is modelled by its full neighbor list for the query's
embedding, from which a query for `n_results` returns the first `n_results`
entries (ChromaDB returns neighbors in ascending-distance order); the source
over-fetches `limit * 2` of them. -/
def semantic_search (store : List Neighbor) (query : PyString) (limit : ℕ)
    (threshold : ℚ) : SearchResponse :=
  let chroma_results := store.take (limit * 2)
  let results := collect_results limit threshold chroma_results []
  { query := query, results := results, total_results := results.length,
    search_type := "semantic" }

/-- Embeds `EmbeddingService._create_embedding` (`embedding_service.py`, lines
167-179): the provider call is a function returning an embedding or an error;
on error the function logs and returns the 768-dimensional zero vector. -/
def create_embedding (provider : PyString → Except PyString (List ℚ))
    (text : PyString) : List ℚ :=
  match provider text with
  | .ok result => result
  | .error _ => List.replicate 768 0

/-- Embeds `EmbeddingService.create_query_embedding` (`embedding_service.py`,
lines 282-293), identical in shape to `create_embedding` with the query
task type. -/
def create_query_embedding (provider : PyString → Except PyString (List ℚ))
    (query : PyString) : List ℚ :=
  match provider query with
  | .ok result => result
  | .error _ => List.replicate 768 0

/-- Follows claim C5's words: for a numeric-parseable value, percentage when
the string contains a percent sign or the parsed value lies in the unit
interval; else currency on a currency symbol; else decimal on a fractional
representation; else number.  Used only to exhibit where the claim and the
code part ways. -/
def classifyPerClaimC5 (value : CellValue) (str_value : PyString) : String :=
  match pyFloat value with
  | none => "text"
  | some q =>
    if str_value.contains '%' || decide (0 ≤ q ∧ q ≤ 1) then "percentage"
    else if currency_symbols.any (fun symbol => str_value.contains symbol) then "currency"
    else if q.den ≠ 1 then "decimal"
    else "number"

/-- Follows the amended claim C5's words: as the claim states the order, but
with the unit-interval test and the fractional-representation test applied
only to float-typed values. -/
def classifyPerAmendedC5 (value : CellValue) (str_value : PyString) : String :=
  if str_value.contains '%' then "percentage"
  else if value.isFloat && floatInUnitInterval value then "percentage"
  else if currency_symbols.any (fun symbol => str_value.contains symbol) then "currency"
  else if value.isFloat && str_value.contains '.' then "decimal"
  else "number"

/-- The rational one half, built with its reduced numerator and denominator
exposed, so concrete runs reduce in the kernel. -/
def ratHalf : ℚ := ⟨1, 2, by decide, by decide⟩

/-- The rational three halves, in the same explicit form. -/
def ratThreeHalves : ℚ := ⟨3, 2, by decide, by decide⟩

/-- The rational nine tenths, in the same explicit form. -/
def ratNineTenths : ℚ := ⟨9, 10, by decide, by decide⟩

/-- The rational eighty five hundred, in the same explicit form. -/
def ratQuota : ℚ := ⟨8500, 1, by decide, by decide⟩

theorem create_data_point_of_numerical (r : ℤ) (c : PyString) (v : CellValue) (q : ℚ)
    (hq : pyFloat v = some q) :
    create_data_point r c v =
      { row_index := r, column_name := c, text_value := none, numerical_value := some q,
        data_type := classify_numerical_type v (pyStrip (pyStr v)), formula := none } := by
  simp only [create_data_point, hq]

theorem create_data_point_of_formula (r : ℤ) (c : PyString) (v : CellValue)
    (hq : pyFloat v = none)
    (hpre : List.isPrefixOf ("=".toList) (pyStrip (pyStr v)) = true) :
    create_data_point r c v =
      { row_index := r, column_name := c, text_value := some (pyStrip (pyStr v)),
        numerical_value := none, data_type := "formula",
        formula := some (pyStrip (pyStr v)) } := by
  simp only [create_data_point, hq, hpre, if_true]

theorem create_data_point_of_text (r : ℤ) (c : PyString) (v : CellValue)
    (hq : pyFloat v = none)
    (hpre : List.isPrefixOf ("=".toList) (pyStrip (pyStr v)) = false) :
    create_data_point r c v =
      { row_index := r, column_name := c, text_value := some (pyStrip (pyStr v)),
        numerical_value := none, data_type := "text", formula := none } := by
  simp only [create_data_point, hq, hpre]
  simp

theorem classify_numerical_type_cases (value : CellValue) (s : PyString) :
    classify_numerical_type value s = "percentage" ∨
    classify_numerical_type value s = "currency" ∨
    classify_numerical_type value s = "decimal" ∨
    classify_numerical_type value s = "number" := by
  unfold classify_numerical_type
  repeat' split
  all_goals simp

/-- C1 (amended): for every configured database session and every SQL statement
whose uppercased text contains a denylisted mutating keyword, the
execute-safely operation raises a `ValueError` naming a denylisted keyword —
independently of the database, so no execution step is reached — rather than
returning an execution error or an empty result set. -/
theorem C1_sql_safety_gate (database : Database) (sql_query kw : PyString)
    (hmem : kw ∈ denylist_keywords)
    (hsub : pyContains (pyUpper sql_query) kw = true) :
    ∃ kw2, kw2 ∈ denylist_keywords ∧
      execute_sql_safely (some database) sql_query =
        .error (.valueError (("Unsafe SQL operation detected: ".toList) ++ kw2)) := by
  have hfind : (denylist_keywords.find? (fun k => pyContains (pyUpper sql_query) k)).isSome := by
    rw [List.find?_isSome]
    exact ⟨kw, hmem, hsub⟩
  obtain ⟨kw2, hkw2⟩ := Option.isSome_iff_exists.mp hfind
  refine ⟨kw2, List.mem_of_find?_eq_some hkw2, ?_⟩
  simp only [execute_sql_safely, hkw2]

theorem C1_sql_safety_gate_witness :
    ∃ kw2, kw2 ∈ denylist_keywords ∧
      execute_sql_safely (some ⟨fun _ => .ok []⟩) ("drop table students".toList) =
        .error (.valueError (("Unsafe SQL operation detected: ".toList) ++ kw2)) :=
  C1_sql_safety_gate ⟨fun _ => .ok []⟩ ("drop table students".toList) ("DROP".toList)
    (by decide) (by decide)

/-- C1 counterexample: with no database session configured, a statement
containing DROP is answered with an empty result list, not with a raised
safety-violation error, because the session guard precedes the keyword gate. -/
theorem C1_counterexample :
    execute_sql_safely none ("DROP TABLE students".toList) = .ok [] ∧
    pyContains (pyUpper ("DROP TABLE students".toList)) ("DROP".toList) = true :=
  ⟨rfl, by decide⟩

/-- C4 (confirmed): a statement that passes the keyword gate but fails at
execution time yields an empty result list; the database error is not
propagated to the caller. -/
theorem C4_execution_error_empty_result (exec : PyString → Except PyString (List Row))
    (sql_query err : PyString)
    (hgate : ∀ kw ∈ denylist_keywords, pyContains (pyUpper sql_query) kw = false)
    (hfail : exec sql_query = .error err) :
    execute_sql_safely (some ⟨exec⟩) sql_query = .ok [] := by
  have hfind : denylist_keywords.find? (fun k => pyContains (pyUpper sql_query) k) = none := by
    rw [List.find?_eq_none]
    intro x hx
    simp [hgate x hx]
  simp only [execute_sql_safely, hfind, hfail]

theorem C4_execution_error_empty_result_witness :
    execute_sql_safely (some ⟨fun _ => .error ("syntax error".toList)⟩)
      ("SELECT * FROM spreadsheet_data LIMIT 10".toList) = .ok [] :=
  C4_execution_error_empty_result (fun _ => .error ("syntax error".toList))
    ("SELECT * FROM spreadsheet_data LIMIT 10".toList) ("syntax error".toList)
    (by decide) rfl

/-- C7 counterexample: the embed operation does not surface a failure through a
returned status — a failing provider call is indistinguishable in-band from a
successful call that returned the zero vector, the return value being a bare
vector in both cases. -/
theorem C7_counterexample :
    create_embedding (fun _ => .error ("boom".toList)) ("hello".toList) =
      create_embedding (fun _ => .ok (List.replicate 768 0)) ("hello".toList) := rfl

/-- C7 (amended): when the provider call fails, neither embed operation raises
to the caller; both return the designated 768-dimensional zero fallback
vector; the failure is logged only, not surfaced via a returned status. -/
theorem C7_embedding_fallback :
    (∀ (provider : PyString → Except PyString (List ℚ)) (text err : PyString),
        provider text = .error err →
        create_embedding provider text = List.replicate 768 0) ∧
    (∀ (provider : PyString → Except PyString (List ℚ)) (query err : PyString),
        provider query = .error err →
        create_query_embedding provider query = List.replicate 768 0) := by
  constructor <;> intro provider t err h <;>
    simp [create_embedding, create_query_embedding, h]

theorem C7_embedding_fallback_witness :
    create_embedding (fun _ => .error ("boom".toList)) ("x".toList) = List.replicate 768 0 ∧
    create_query_embedding (fun _ => .error ("boom".toList)) ("x".toList) =
      List.replicate 768 0 :=
  ⟨C7_embedding_fallback.1 (fun _ => .error ("boom".toList)) ("x".toList) ("boom".toList) rfl,
   C7_embedding_fallback.2 (fun _ => .error ("boom".toList)) ("x".toList) ("boom".toList) rfl⟩

/-- C8 (confirmed): every cell record has exactly one of text value and
numerical value populated, and a record classified as formula retains the raw
(stripped) formula string as its text value, carries it in the formula field,
and has no numerical value. -/
theorem C8_exactly_one_populated (r : ℤ) (c : PyString) (v : CellValue) :
    (((create_data_point r c v).text_value ≠ none ∧
      (create_data_point r c v).numerical_value = none) ∨
     ((create_data_point r c v).text_value = none ∧
      (create_data_point r c v).numerical_value ≠ none)) ∧
    ((create_data_point r c v).data_type = "formula" →
      (create_data_point r c v).text_value = some (pyStrip (pyStr v)) ∧
      (create_data_point r c v).formula = (create_data_point r c v).text_value ∧
      (create_data_point r c v).numerical_value = none) := by
  cases hq : pyFloat v with
  | some q =>
    rw [create_data_point_of_numerical r c v q hq]
    refine ⟨Or.inr ⟨rfl, by simp⟩, ?_⟩
    intro hf
    rcases classify_numerical_type_cases v (pyStrip (pyStr v)) with h | h | h | h <;> simp_all
  | none =>
    cases hpre : List.isPrefixOf ("=".toList) (pyStrip (pyStr v)) with
    | true =>
      rw [create_data_point_of_formula r c v hq hpre]
      exact ⟨Or.inl ⟨by simp, rfl⟩, fun _ => ⟨rfl, rfl, rfl⟩⟩
    | false =>
      rw [create_data_point_of_text r c v hq hpre]
      refine ⟨Or.inl ⟨by simp, rfl⟩, ?_⟩
      intro hf
      simp at hf

theorem C8_exactly_one_populated_witness :
    (create_data_point 0 [] (.str ("=SUM(A1)".toList))).text_value =
      some (pyStrip (pyStr (.str ("=SUM(A1)".toList)))) ∧
    (create_data_point 0 [] (.str ("=SUM(A1)".toList))).formula =
      (create_data_point 0 [] (.str ("=SUM(A1)".toList))).text_value ∧
    (create_data_point 0 [] (.str ("=SUM(A1)".toList))).numerical_value = none :=
  (C8_exactly_one_populated 0 [] (.str ("=SUM(A1)".toList))).2 (by decide)

/-- C10 (confirmed): the unit-interval percentage test applies only to
float-typed cell values — an integer-typed value in the unit interval whose
string form contains neither a percent sign nor a currency symbol is
classified as number, not percentage. -/
theorem C10_int_in_unit_interval_is_number (n r : ℤ) (c : PyString)
    (h0 : 0 ≤ n) (h1 : n ≤ 1)
    (hpct : (pyStrip (pyStr (.int n))).contains '%' = false)
    (hcur : currency_symbols.any
      (fun symbol => (pyStrip (pyStr (.int n))).contains symbol) = false) :
    (create_data_point r c (.int n)).data_type = "number" := by
  rw [create_data_point_of_numerical r c (.int n) (n : ℚ) (by simp [pyFloat])]
  simp only [classify_numerical_type, hpct, hcur, floatInUnitInterval, CellValue.isFloat]
  simp

theorem C10_int_in_unit_interval_is_number_witness :
    (create_data_point 0 [] (.int 1)).data_type = "number" :=
  C10_int_in_unit_interval_is_number 1 0 [] (by decide) (by decide) (by decide) (by decide)

/-- C6 counterexample: the cell value is the string dollar-one-hundred, whose
value string contains the dollar sign; the extractor classifies it as text,
not currency, because a string containing a dollar sign never parses as a
float and so never reaches the numerical classifier. -/
theorem C6_counterexample :
    (create_data_point 0 [] (.str ("$100".toList))).data_type = "text" ∧
    ("text" : String) ≠ "currency" :=
  ⟨by decide, by decide⟩

theorem digitChar_mem_digits (n : ℕ) :
    digitChar n ∈ ['0', '1', '2', '3', '4', '5', '6', '7', '8', '9'] := by
  unfold digitChar
  split <;> simp

theorem mem_natDigitsAux (fuel : ℕ) : ∀ (n : ℕ) (acc : List Char) (c : Char),
    c ∈ natDigitsAux fuel n acc →
    c ∈ ['0', '1', '2', '3', '4', '5', '6', '7', '8', '9'] ∨ c ∈ acc := by
  induction fuel with
  | zero => exact fun n acc c h => Or.inr h
  | succ fuel ih =>
    intro n acc c h
    unfold natDigitsAux at h
    split at h
    · rcases List.mem_cons.mp h with h | h
      · exact Or.inl (h ▸ digitChar_mem_digits n)
      · exact Or.inr h
    · rcases ih _ _ _ h with h | h
      · exact Or.inl h
      · rcases List.mem_cons.mp h with h | h
        · exact Or.inl (h ▸ digitChar_mem_digits _)
        · exact Or.inr h

theorem mem_natDigits {n : ℕ} {c : Char} (h : c ∈ natDigits n) :
    c ∈ ['0', '1', '2', '3', '4', '5', '6', '7', '8', '9'] := by
  rcases mem_natDigitsAux (n + 1) n [] c h with h | h
  · exact h
  · cases h

theorem mem_fracDigitsAux (fuel : ℕ) : ∀ (rem den : ℕ) (c : Char),
    c ∈ fracDigitsAux fuel rem den →
    c ∈ ['0', '1', '2', '3', '4', '5', '6', '7', '8', '9'] := by
  induction fuel with
  | zero => intro rem den c h; cases h
  | succ fuel ih =>
    intro rem den c h
    unfold fracDigitsAux at h
    split at h
    · cases h
    · rcases List.mem_cons.mp h with h | h
      · exact h ▸ digitChar_mem_digits _
      · exact ih _ _ _ h

theorem mem_pyStrInt {n : ℤ} {c : Char} (h : c ∈ pyStrInt n) :
    c ∈ ['-', '0', '1', '2', '3', '4', '5', '6', '7', '8', '9'] := by
  unfold pyStrInt at h
  rcases List.mem_append.mp h with h | h
  · split at h <;> simp_all
  · have := mem_natDigits h
    simp_all

theorem mem_pyStrFloat {q : ℚ} {c : Char} (h : c ∈ pyStrFloat q) :
    c ∈ ['-', '.', '0', '1', '2', '3', '4', '5', '6', '7', '8', '9'] := by
  unfold pyStrFloat at h
  rcases List.mem_append.mp h with h | h
  · rcases List.mem_append.mp h with h | h
    · split at h <;> simp_all
    · have := mem_natDigits h
      simp_all
  · rcases List.mem_cons.mp h with h | h
    · simp [h]
    · split at h
      · simp_all
      · have := mem_fracDigitsAux 1200 _ _ _ h
        simp_all

theorem mem_dropWhile_of_mem {α : Type} (p : α → Bool) {c : α} {l : List α}
    (h : c ∈ l) (hc : p c = false) : c ∈ l.dropWhile p := by
  have hsplit : l.takeWhile p ++ l.dropWhile p = l := List.takeWhile_append_dropWhile p l
  rcases List.mem_append.mp (hsplit ▸ h) with h2 | h2
  · have := List.mem_takeWhile_imp h2
    rw [hc] at this
    cases this
  · exact h2

theorem mem_of_mem_pyStrip {c : Char} {s : PyString} (h : c ∈ pyStrip s) : c ∈ s := by
  unfold pyStrip at h
  rw [List.mem_reverse] at h
  have h2 := (List.dropWhile_sublist _).subset h
  rw [List.mem_reverse] at h2
  exact (List.dropWhile_sublist _).subset h2

theorem mem_pyStrip_of_mem {c : Char} {s : PyString} (hc : c.isWhitespace = false)
    (h : c ∈ s) : c ∈ pyStrip s := by
  unfold pyStrip
  rw [List.mem_reverse]
  apply mem_dropWhile_of_mem _ _ hc
  rw [List.mem_reverse]
  exact mem_dropWhile_of_mem _ h hc

theorem mem_parseSign_snd {c : Char} {t : PyString} (h1 : c ≠ '+') (h2 : c ≠ '-')
    (h : c ∈ t) : c ∈ (parseSign t).2 := by
  match t with
  | [] => cases h
  | d :: rest =>
    simp only [parseSign]
    rcases List.mem_cons.mp h with h | h
    · subst h
      simp [h1, h2]
    · split_ifs <;> simp [h]

theorem mem_splitFraction_snd {t : PyString} (h : '$' ∈ t) :
    '$' ∈ (splitFraction t).2 := by
  match t with
  | [] => cases h
  | d :: r =>
    simp only [splitFraction]
    split_ifs with hdot
    · subst hdot
      rcases List.mem_cons.mp h with h5 | h5
      · exact absurd h5 (by decide)
      · exact mem_dropWhile_of_mem _ h5 (by decide)
    · exact h

theorem parseExponent_eq_none_of_dollar {t : PyString} (h : '$' ∈ t) :
    parseExponent t = none := by
  match t with
  | [] => cases h
  | c :: rest =>
    simp only [parseExponent]
    split_ifs with he hinner
    · rfl
    · exfalso
      apply hinner
      right
      have hr : '$' ∈ rest := by
        rcases List.mem_cons.mp h with hc | hc
        · subst hc
          rcases he with he | he <;> exact absurd he (by decide)
        · exact hc
      have hmem : '$' ∈ (parseSign rest).2 :=
        mem_parseSign_snd (by decide) (by decide) hr
      have hmem2 : '$' ∈ (parseSign rest).2.dropWhile Char.isDigit :=
        mem_dropWhile_of_mem _ hmem (by decide)
      cases hd : (parseSign rest).2.dropWhile Char.isDigit with
      | nil => rw [hd] at hmem2; cases hmem2
      | cons a b => simp [hd]
    · rfl

theorem pyFloatOfString_eq_none_of_dollar {s : PyString} (h : '$' ∈ s) :
    pyFloatOfString s = none := by
  have ht : '$' ∈ pyStrip s := mem_pyStrip_of_mem (by decide) h
  have h1 : '$' ∈ (parseSign (pyStrip s)).2 :=
    mem_parseSign_snd (by decide) (by decide) ht
  have h2 : '$' ∈ (parseSign (pyStrip s)).2.dropWhile Char.isDigit :=
    mem_dropWhile_of_mem _ h1 (by decide)
  have h3 : '$' ∈ (splitFraction ((parseSign (pyStrip s)).2.dropWhile Char.isDigit)).2 :=
    mem_splitFraction_snd h2
  simp only [pyFloatOfString, parseExponent_eq_none_of_dollar h3]
  split_ifs <;> rfl

/-- C6 (amended): a cell whose value string contains the dollar sign never
parses as a float, so the extractor classifies such a cell as formula or text,
never currency; within the numerical classifier itself the currency branch
precedes the fractional branch, so a numerical value whose string contains a
dollar sign and is not caught by the percentage test classifies as currency
regardless of whether it is also fractional. -/
theorem C6_dollar_classification :
    (∀ (r : ℤ) (c : PyString) (v : CellValue), '$' ∈ pyStr v →
      (create_data_point r c v).data_type = "formula" ∨
      (create_data_point r c v).data_type = "text") ∧
    (∀ (value : CellValue) (str_value : PyString),
      str_value.contains '$' = true → str_value.contains '%' = false →
      floatInUnitInterval value = false →
      classify_numerical_type value str_value = "currency") := by
  constructor
  · intro r c v hv
    cases v with
    | int n => exact absurd (mem_pyStrInt hv) (by decide)
    | float q => exact absurd (mem_pyStrFloat hv) (by decide)
    | str s =>
      have hq : pyFloat (.str s) = none := pyFloatOfString_eq_none_of_dollar hv
      cases hpre : List.isPrefixOf ("=".toList) (pyStrip (pyStr (.str s))) with
      | true =>
        left
        rw [create_data_point_of_formula r c _ hq hpre]
      | false =>
        right
        rw [create_data_point_of_text r c _ hq hpre]
  · intro value str_value hd hp hu
    have hcur : currency_symbols.any (fun symbol => str_value.contains symbol) = true :=
      List.any_eq_true.mpr ⟨'$', by decide, hd⟩
    unfold classify_numerical_type
    rw [hp, hu, hcur]
    simp

theorem C6_dollar_classification_witness :
    ((create_data_point 0 [] (.str ("$100".toList))).data_type = "formula" ∨
     (create_data_point 0 [] (.str ("$100".toList))).data_type = "text") ∧
    classify_numerical_type (.str ("$1.50".toList)) ("$1.50".toList) = "currency" :=
  ⟨C6_dollar_classification.1 0 [] (.str ("$100".toList)) (by decide),
   C6_dollar_classification.2 (.str ("$1.50".toList)) ("$1.50".toList)
     (by decide) (by decide) (by decide)⟩

/-- C5 counterexample: the integer 1 is numeric-parseable, its value lies in
the unit interval, and its string contains no percent sign, so the claim's
classification chain yields percentage; the code classifies it as number,
because its unit-interval test is guarded by a float-type check. -/
theorem C5_counterexample :
    classifyPerClaimC5 (.int 1) (pyStrip (pyStr (.int 1))) = "percentage" ∧
    (create_data_point 0 [] (.int 1)).data_type = "number" :=
  ⟨by decide, by decide⟩

/-- C5 (amended): the classifier follows the claimed order with the
unit-interval test and the fractional-representation test restricted to
float-typed values; in particular the float one half (no percent sign)
classifies as percentage and the float three halves does not (it falls through
to decimal). -/
theorem C5_classification_order :
    (∀ (value : CellValue) (str_value : PyString),
        classify_numerical_type value str_value = classifyPerAmendedC5 value str_value) ∧
    (create_data_point 0 [] (.float ratHalf)).data_type = "percentage" ∧
    (create_data_point 0 [] (.float ratThreeHalves)).data_type = "decimal" := by
  refine ⟨?_, by decide, by decide⟩
  intro value str_value
  unfold classify_numerical_type classifyPerAmendedC5
  cases value <;> simp [floatInUnitInterval, CellValue.isFloat] <;> split_ifs <;> simp_all
theorem lookup_dictSet_self (row : Row) (k : PyString) (v : SqlValue) :
    List.lookup k (dictSet row k v) = some v := by
  induction row with
  | nil => simp [dictSet, List.lookup]
  | cons hd tl ih =>
    obtain ⟨k1, v1⟩ := hd
    simp only [dictSet]
    split_ifs with hk
    · simp [List.lookup]
    · have hbeq : (k == k1) = false := beq_eq_false_iff_ne.mpr (fun h2 => hk h2.symm)
      simp only [List.lookup, hbeq]
      exact ih

theorem lookup_dictSet_ne (row : Row) (k k2 : PyString) (v : SqlValue) (h : k2 ≠ k) :
    List.lookup k2 (dictSet row k v) = List.lookup k2 row := by
  induction row with
  | nil =>
    have hbeq : (k2 == k) = false := beq_eq_false_iff_ne.mpr h
    simp [dictSet, List.lookup, hbeq]
  | cons hd tl ih =>
    obtain ⟨k1, v1⟩ := hd
    simp only [dictSet]
    split_ifs with hk
    · subst hk
      have hbeq : (k2 == k1) = false := beq_eq_false_iff_ne.mpr h
      simp only [List.lookup, hbeq]
    · simp only [List.lookup]
      cases hbeq : k2 == k1 with
      | true => rfl
      | false => exact ih

theorem post_process_row_cases (row : Row) :
    post_process_row row = row ∨
    ∃ v, post_process_row row = dictSet row ("formatted_value".toList) v := by
  unfold post_process_row
  by_cases h0 : (dictContains row ("numerical_value".toList) &&
      dictContains row ("column_name".toList)) = true
  · rw [if_pos h0]
    by_cases h1 : (pyContains (pyLower (rowColumnName row)) ("performance".toList) ||
        (rowColumnName row).contains '%') = true
    · rw [if_pos h1]
      cases hl : List.lookup ("numerical_value".toList) row with
      | none => exact Or.inl rfl
      | some v =>
        cases hn : v.isNumber with
        | true =>
          refine Or.inr ⟨.str (format_percent v.numVal), ?_⟩
          simp [hn]
        | false =>
          refine Or.inl ?_
          simp [hn]
    · rw [if_neg h1]
      by_cases h2 : (pyContains (pyLower (rowColumnName row)) ("sales".toList) ||
          pyContains (pyLower (rowColumnName row)) ("quota".toList)) = true
      · rw [if_pos h2]
        cases hl : List.lookup ("numerical_value".toList) row with
        | none => exact Or.inl rfl
        | some v =>
          cases hn : v.isNumber with
          | true =>
            refine Or.inr ⟨.str (format_currency v.numVal), ?_⟩
            simp [hn]
          | false =>
            refine Or.inl ?_
            simp [hn]
      · rw [if_neg h2]
        exact Or.inl rfl
  · rw [if_neg h0]
    exact Or.inl rfl

/-- C9 (confirmed): SQL-mode post-processing annotates rows whose column name
suggests a percentage with a percent-formatted display string and rows whose
column name suggests sales or quota with a currency-formatted display string,
and the annotation only writes the separate display field — the lookup of
every other key of every row, in particular the underlying numerical value,
is unchanged; the whole pass is the per-row map (the empty list is returned
as is). -/
theorem C9_postprocess_display_field :
    (∀ (row : Row) (k : PyString), k ≠ ("formatted_value".toList) →
      List.lookup k (post_process_row row) = List.lookup k row) ∧
    (∀ (row : Row) (col : PyString) (q : ℚ),
      List.lookup ("column_name".toList) row = some (.str col) →
      List.lookup ("numerical_value".toList) row = some (.float q) →
      (pyContains (pyLower col) ("performance".toList) || col.contains '%') = true →
      List.lookup ("formatted_value".toList) (post_process_row row) =
        some (.str (format_percent q))) ∧
    (∀ (row : Row) (col : PyString) (q : ℚ),
      List.lookup ("column_name".toList) row = some (.str col) →
      List.lookup ("numerical_value".toList) row = some (.float q) →
      (pyContains (pyLower col) ("performance".toList) || col.contains '%') = false →
      (pyContains (pyLower col) ("sales".toList) ||
        pyContains (pyLower col) ("quota".toList)) = true →
      List.lookup ("formatted_value".toList) (post_process_row row) =
        some (.str (format_currency q))) ∧
    (∀ results : List Row, post_process_sql_results results = results.map post_process_row) := by
  refine ⟨?_, ?_, ?_, ?_⟩
  · intro row k hk
    rcases post_process_row_cases row with h | ⟨v, h⟩
    · rw [h]
    · rw [h, lookup_dictSet_ne _ _ _ _ hk]
  · intro row col q hcol hnum hcond
    have hc1 : dictContains row ("numerical_value".toList) = true := by
      unfold dictContains
      rw [hnum]
      rfl
    have hc2 : dictContains row ("column_name".toList) = true := by
      unfold dictContains
      rw [hcol]
      rfl
    have hname : rowColumnName row = col := by
      simp only [rowColumnName]
      rw [hcol]
    unfold post_process_row
    rw [hc1, hc2, hname]
    rw [if_pos (show (true && true) = true from rfl), if_pos hcond, hnum]
    simp [SqlValue.isNumber, SqlValue.numVal, lookup_dictSet_self]
  · intro row col q hcol hnum hcond1 hcond2
    have hc1 : dictContains row ("numerical_value".toList) = true := by
      unfold dictContains
      rw [hnum]
      rfl
    have hc2 : dictContains row ("column_name".toList) = true := by
      unfold dictContains
      rw [hcol]
      rfl
    have hname : rowColumnName row = col := by
      simp only [rowColumnName]
      rw [hcol]
    unfold post_process_row
    rw [hc1, hc2, hname]
    rw [if_pos (show (true && true) = true from rfl)]
    rw [if_neg (by rw [hcond1]; exact Bool.false_ne_true), if_pos hcond2, hnum]
    simp [SqlValue.isNumber, SqlValue.numVal, lookup_dictSet_self]
  · intro results
    unfold post_process_sql_results
    split_ifs with h
    · simp [List.isEmpty_iff.mp h]
    · rfl

theorem C9_postprocess_display_field_witness :
    List.lookup ("formatted_value".toList)
      (post_process_row [(("column_name".toList), .str ("Performance %".toList)),
                         (("numerical_value".toList), .float ratNineTenths)]) =
      some (.str (format_percent ratNineTenths)) ∧
    List.lookup ("rep_name".toList)
      (post_process_row [(("rep_name".toList), .str ("Alice".toList)),
                         (("column_name".toList), .str ("Actual Sales".toList)),
                         (("numerical_value".toList), .float ratQuota)]) =
      List.lookup ("rep_name".toList)
        [(("rep_name".toList), .str ("Alice".toList)),
         (("column_name".toList), .str ("Actual Sales".toList)),
         (("numerical_value".toList), .float ratQuota)] ∧
    List.lookup ("formatted_value".toList)
      (post_process_row [(("rep_name".toList), .str ("Alice".toList)),
                         (("column_name".toList), .str ("Actual Sales".toList)),
                         (("numerical_value".toList), .float ratQuota)]) =
      some (.str (format_currency ratQuota)) :=
  ⟨C9_postprocess_display_field.2.1 _ ("Performance %".toList) ratNineTenths
      (by decide) (by decide) (by decide),
   C9_postprocess_display_field.1 _ ("rep_name".toList) (by decide),
   C9_postprocess_display_field.2.2.1 _ ("Actual Sales".toList) ratQuota
      (by decide) (by decide) (by decide) (by decide)⟩

theorem collect_results_eq (limit : ℕ) (threshold : ℚ) :
    ∀ (ns : List Neighbor) (acc : List SearchResult), acc.length < limit →
    collect_results limit threshold ns acc =
      acc ++ ((ns.filter (fun n => !decide (1 - n.distance < threshold))).map
        (fun n => mkSearchResult n (1 - n.distance))).take (limit - acc.length) := by
  intro ns
  induction ns with
  | nil => intro acc h; simp [collect_results]
  | cons n rest ih =>
    intro acc hacc
    simp only [collect_results]
    by_cases hs : (1 - n.distance < threshold)
    · rw [if_pos hs, ih acc hacc]
      have hfil : (n :: rest).filter (fun n => !decide (1 - n.distance < threshold)) =
          rest.filter (fun n => !decide (1 - n.distance < threshold)) := by
        simp [List.filter_cons, hs]
      rw [hfil]
    · rw [if_neg hs]
      have hfil : (n :: rest).filter (fun n => !decide (1 - n.distance < threshold)) =
          n :: rest.filter (fun n => !decide (1 - n.distance < threshold)) := by
        simp [List.filter_cons, hs]
      by_cases hlim : limit ≤ (acc ++ [mkSearchResult n (1 - n.distance)]).length
      · rw [if_pos hlim]
        have hlen : limit - acc.length = 1 := by
          simp only [List.length_append, List.length_cons, List.length_nil] at hlim
          omega
        rw [hfil, hlen]
        simp
      · rw [if_neg hlim]
        have hlt : (acc ++ [mkSearchResult n (1 - n.distance)]).length < limit := by
          omega
        rw [ih _ hlt, hfil]
        have hsub : limit - acc.length = (limit - (acc.length + 1)) + 1 := by omega
        simp only [List.map_cons, List.length_append, List.length_cons, List.length_nil,
          List.append_assoc, List.cons_append, List.nil_append]
        rw [hsub, List.take_succ_cons]

theorem semantic_search_results_eq (store : List Neighbor) (query : PyString)
    (limit : ℕ) (threshold : ℚ) :
    (semantic_search store query limit threshold).results =
      (((store.take (limit * 2)).filter
          (fun n => !decide (1 - n.distance < threshold))).map
        (fun n => mkSearchResult n (1 - n.distance))).take limit := by
  cases limit with
  | zero => simp [semantic_search, collect_results]
  | succ k =>
    simp only [semantic_search]
    rw [collect_results_eq (k + 1) threshold _ [] (by simp)]
    simp

/-- C2 (amended): with the vector store returning neighbors in
ascending-distance order (ties possible), the semantic results are ordered by
non-increasing similarity `1 - distance` (strictly descending whenever the
returned distances are pairwise distinct); every returned result clears the
threshold; the result count never exceeds the limit; `total_results` is the
result count; and when no neighbor clears the threshold the outcome is the
valid empty result list with `total_results = 0`, not an error. -/
theorem C2_semantic_search_guarantees (store : List Neighbor) (query : PyString)
    (limit : ℕ) (threshold : ℚ)
    (hsorted : List.Pairwise (fun a b => a.distance ≤ b.distance) store) :
    List.Pairwise (fun a b : SearchResult => b.score ≤ a.score)
      (semantic_search store query limit threshold).results ∧
    (∀ r ∈ (semantic_search store query limit threshold).results, threshold ≤ r.score) ∧
    (semantic_search store query limit threshold).results.length ≤ limit ∧
    (semantic_search store query limit threshold).total_results =
      (semantic_search store query limit threshold).results.length ∧
    ((∀ n ∈ store, 1 - n.distance < threshold) →
      (semantic_search store query limit threshold).results = [] ∧
      (semantic_search store query limit threshold).total_results = 0) := by
  have heq := semantic_search_results_eq store query limit threshold
  refine ⟨?_, ?_, ?_, rfl, ?_⟩
  · rw [heq]
    apply List.Pairwise.sublist (List.take_sublist _ _)
    apply List.Pairwise.map
    · intro a b hab
      simp only [mkSearchResult]
      exact sub_le_sub_left hab 1
    · exact (hsorted.sublist (List.take_sublist _ _)).filter _
  · intro r hr
    rw [heq] at hr
    have hr2 := List.mem_of_mem_take hr
    obtain ⟨n, hn, hrn⟩ := List.mem_map.mp hr2
    have hpred := List.of_mem_filter hn
    simp only [Bool.not_eq_true', decide_eq_false_iff_not, not_lt] at hpred
    rw [← hrn]
    exact hpred
  · rw [heq]
    exact le_trans (List.length_take_le _ _) le_rfl
  · intro hall
    have hnil : (store.take (limit * 2)).filter
        (fun n => !decide (1 - n.distance < threshold)) = [] := by
      rw [List.filter_eq_nil_iff]
      intro n hn
      have := hall n (List.mem_of_mem_take hn)
      simp [this]
    constructor
    · rw [heq, hnil]
      simp
    · have : (semantic_search store query limit threshold).total_results =
        (semantic_search store query limit threshold).results.length := rfl
      rw [this, heq, hnil]
      simp

theorem C2_semantic_search_guarantees_witness :
    List.Pairwise (fun a b : SearchResult => b.score ≤ a.score)
      (semantic_search [⟨("doc".toList), 0, ("col".toList), 0⟩] ("q".toList) 1 0).results ∧
    (∀ r ∈ (semantic_search [⟨("doc".toList), 0, ("col".toList), 0⟩]
        ("q".toList) 1 0).results, (0 : ℚ) ≤ r.score) ∧
    (semantic_search [⟨("doc".toList), 0, ("col".toList), 0⟩]
        ("q".toList) 1 0).results.length ≤ 1 ∧
    (semantic_search [⟨("doc".toList), 0, ("col".toList), 0⟩]
        ("q".toList) 1 0).total_results =
      (semantic_search [⟨("doc".toList), 0, ("col".toList), 0⟩]
        ("q".toList) 1 0).results.length ∧
    ((∀ n ∈ [(⟨("doc".toList), 0, ("col".toList), 0⟩ : Neighbor)], 1 - n.distance < 0) →
      (semantic_search [⟨("doc".toList), 0, ("col".toList), 0⟩]
        ("q".toList) 1 0).results = [] ∧
      (semantic_search [⟨("doc".toList), 0, ("col".toList), 0⟩]
        ("q".toList) 1 0).total_results = 0) :=
  C2_semantic_search_guarantees [⟨("doc".toList), 0, ("col".toList), 0⟩]
    ("q".toList) 1 0 (by simp)

/-- C2 counterexample: two neighbors at the same distance satisfy the
ascending-distance hypothesis, and the produced result list has two equal
similarity scores, so it is not strictly descending. -/
theorem C2_counterexample :
    List.Pairwise (fun a b : Neighbor => a.distance ≤ b.distance)
      [⟨("a".toList), 0, ("c".toList), 0⟩, ⟨("b".toList), 1, ("c".toList), 0⟩] ∧
    ¬ List.Pairwise (fun a b : SearchResult => b.score < a.score)
      (semantic_search
        [⟨("a".toList), 0, ("c".toList), 0⟩, ⟨("b".toList), 1, ("c".toList), 0⟩]
        ("q".toList) 5 0).results := by
  constructor
  · simp
  · rw [semantic_search_results_eq]
    norm_num [mkSearchResult, List.filter]

theorem create_data_point_type_cases (r : ℤ) (c : PyString) (v : CellValue) :
    (create_data_point r c v).data_type = "text" ∨
    (create_data_point r c v).data_type = "percentage" ∨
    (create_data_point r c v).data_type = "currency" ∨
    (create_data_point r c v).data_type = "decimal" ∨
    (create_data_point r c v).data_type = "number" ∨
    (create_data_point r c v).data_type = "formula" := by
  cases hq : pyFloat v with
  | some q =>
    rw [create_data_point_of_numerical r c v q hq]
    rcases classify_numerical_type_cases v (pyStrip (pyStr v)) with h | h | h | h <;> simp [h]
  | none =>
    cases hpre : List.isPrefixOf ("=".toList) (pyStrip (pyStr v)) with
    | true =>
      rw [create_data_point_of_formula r c v hq hpre]
      simp
    | false =>
      rw [create_data_point_of_text r c v hq hpre]
      simp

theorem allDataPoints_types (df : DataFrame) (headers : List PyString) :
    ∀ dp ∈ allDataPoints df headers, dp.data_type = "text" ∨
      dp.data_type = "percentage" ∨ dp.data_type = "currency" ∨
      dp.data_type = "decimal" ∨ dp.data_type = "number" ∨
      dp.data_type = "formula" := by
  intro dp hdp
  unfold allDataPoints at hdp
  rw [List.mem_flatten] at hdp
  obtain ⟨l, hl, hdpl⟩ := hdp
  rw [List.mem_map] at hl
  obtain ⟨p, hp, hpl⟩ := hl
  rw [← hpl] at hdpl
  unfold rowDataPoints at hdpl
  rw [List.mem_filterMap] at hdpl
  obtain ⟨c, hc, hfc⟩ := hdpl
  split at hfc
  · split at hfc
    · rw [Option.some_inj] at hfc
      rw [← hfc]
      exact create_data_point_type_cases _ _ _
    · cases hfc
  · cases hfc

theorem rowDataPoints_length (columns : List PyString) (row_idx : ℤ)
    (row : List (PyString × Option CellValue)) (headers : List PyString) :
    (rowDataPoints columns headers row_idx row).length =
      (headers.filter (fun c =>
        decide (c ∈ columns) && ((List.lookup c row).join).isSome)).length := by
  induction headers with
  | nil => rfl
  | cons h t ih =>
    by_cases hc : h ∈ columns
    · cases hl : (List.lookup h row).join with
      | some v =>
        have hstep : rowDataPoints columns (h :: t) row_idx row =
            create_data_point row_idx h v :: rowDataPoints columns t row_idx row := by
          unfold rowDataPoints
          rw [List.filterMap_cons]
          rw [if_pos hc]
          simp only [hl]
        have hfil : (h :: t).filter (fun c =>
            decide (c ∈ columns) && ((List.lookup c row).join).isSome) =
            h :: t.filter (fun c =>
              decide (c ∈ columns) && ((List.lookup c row).join).isSome) := by
          rw [List.filter_cons]
          simp only [hl]
          simp [hc]
        rw [hstep, hfil, List.length_cons, List.length_cons, ih]
      | none =>
        have hstep : rowDataPoints columns (h :: t) row_idx row =
            rowDataPoints columns t row_idx row := by
          unfold rowDataPoints
          rw [List.filterMap_cons]
          rw [if_pos hc]
          simp only [hl]
        have hfil : (h :: t).filter (fun c =>
            decide (c ∈ columns) && ((List.lookup c row).join).isSome) =
            t.filter (fun c =>
              decide (c ∈ columns) && ((List.lookup c row).join).isSome) := by
          rw [List.filter_cons]
          simp only [hl]
          simp
        rw [hstep, hfil, ih]
    · have hstep : rowDataPoints columns (h :: t) row_idx row =
          rowDataPoints columns t row_idx row := by
        unfold rowDataPoints
        rw [List.filterMap_cons]
        rw [if_neg hc]
      have hfil : (h :: t).filter (fun c =>
          decide (c ∈ columns) && ((List.lookup c row).join).isSome) =
          t.filter (fun c =>
            decide (c ∈ columns) && ((List.lookup c row).join).isSome) := by
        rw [List.filter_cons]
        simp [hc]
      rw [hstep, hfil, ih]

theorem enumFrom_rows_length_sum (columns headers : List PyString) :
    ∀ (l : List (List (PyString × Option CellValue))) (start : ℕ),
    ((List.enumFrom start l).map
      (fun p => (rowDataPoints columns headers (p.1 : ℤ) p.2).length)).sum =
    (l.map (fun row => (headers.filter (fun c =>
        decide (c ∈ columns) && ((List.lookup c row).join).isSome)).length)).sum := by
  intro l
  induction l with
  | nil => intro start; rfl
  | cons r t ih =>
    intro start
    simp only [List.enumFrom, List.map_cons, List.sum_cons]
    rw [rowDataPoints_length, ih]

theorem allDataPoints_length (df : DataFrame) (headers : List PyString) :
    (allDataPoints df headers).length = dataCellCount df headers := by
  unfold allDataPoints dataCellCount
  rw [List.length_flatten, List.map_map]
  have := enumFrom_rows_length_sum df.columns headers df.rows 0
  rw [← this]
  rfl

theorem length_filter_partition (pts : List ExcelDataPoint)
    (hall : ∀ dp ∈ pts, dp.data_type = "text" ∨ dp.data_type = "percentage" ∨
      dp.data_type = "currency" ∨ dp.data_type = "decimal" ∨
      dp.data_type = "number" ∨ dp.data_type = "formula") :
    (pts.filter (fun dp => dp.data_type == "text")).length +
      (pts.filter (fun dp => numerical_types.contains dp.data_type)).length +
      (pts.filter (fun dp => dp.data_type == "decimal")).length +
      (pts.filter (fun dp => dp.data_type == "formula")).length = pts.length := by
  induction pts with
  | nil => rfl
  | cons dp t ih =>
    have hdp := hall dp (List.mem_cons_self _ _)
    have ih2 := ih (fun x hx => hall x (List.mem_cons_of_mem _ hx))
    rcases hdp with h | h | h | h | h | h <;>
      simp [List.filter_cons, h, numerical_types] at ih2 ⊢ <;> omega

/-- C3 (amended): the extractor's outputs are the order-preserving filters of
the classified cell stream — `text_data` holds the cells classified text and
`numerical_data` those classified number, percentage or currency — but cells
classified decimal or formula are appended to neither sequence, so for a data
region with N non-empty, non-null cells,
`len(text_data) + len(numerical_data) = N - (decimal cells + formula cells)`;
equivalently the two lengths plus the dropped decimal and formula counts
equal N. -/
theorem C3_partition (df : DataFrame) (headers : List PyString) :
    (separate_data_types df headers).1.length +
      (separate_data_types df headers).2.length +
      ((allDataPoints df headers).filter (fun dp => dp.data_type == "decimal")).length +
      ((allDataPoints df headers).filter (fun dp => dp.data_type == "formula")).length =
      dataCellCount df headers := by
  have h1 := length_filter_partition (allDataPoints df headers) (allDataPoints_types df headers)
  have h2 := allDataPoints_length df headers
  have h3 : (separate_data_types df headers).1 =
      (allDataPoints df headers).filter (fun dp => dp.data_type == "text") := rfl
  have h4 : (separate_data_types df headers).2 =
      (allDataPoints df headers).filter (fun dp => numerical_types.contains dp.data_type) := rfl
  rw [h3, h4]
  omega

/-- C3 counterexample: one data cell holding the float three halves is
classified decimal, and the extractor appends it to neither output sequence,
so a file with one non-empty cell yields zero total output length, not one. -/
theorem C3_counterexample :
    dataCellCount
      (DataFrame.mk [("A".toList)] [[(("A".toList), some (.float ratThreeHalves))]])
      [("A".toList)] = 1 ∧
    (separate_data_types
      (DataFrame.mk [("A".toList)] [[(("A".toList), some (.float ratThreeHalves))]])
      [("A".toList)]).1.length +
    (separate_data_types
      (DataFrame.mk [("A".toList)] [[(("A".toList), some (.float ratThreeHalves))]])
      [("A".toList)]).2.length = 0 := by
  constructor
  · decide
  · decide
